import Mathlib

/-
Shallow embedding of elliott/oit/packages/runtime.py (class Runtime).

The artifact-selection algorithm (Runtime.initialize lines 150-249, including
the nested collect_configs), the lifecycle guard (lines 74, 82-128), the
record-log encoder (add_record), the lookup operations (resolve_image,
resolve_stream) and the flag-file store (flag_create / flag_exists /
flag_remove) are translated into pure Lean functions below.  Filesystem
directory listings become lists of names, Python dicts become association
lists, the flags directory becomes an association list from file name to
content, and Python exceptions become Except / Option results.
-/

/-- Log events emitted by collect_configs (the self.info calls at lines
223, 226, 229, 234) and by the missed-optional report at line 206. -/
inductive SelEvent where
  | includeEv (name : String)
  | optionalIncludeEv (name : String)
  | skipEv (searchType name : String)
  | excludeEv (searchType name : String)
  | missedOptionalEv (names : List String)
deriving DecidableEq

/-- Mutable state threaded through the collect_configs loop (lines 219-238):
the consumable include / optional_include lists (the loop removes matched
names from them), the admitted names (the gen callback inserts them into
image_map / rpm_map in order), and the log events emitted so far. -/
structure CCState where
  incl : List String
  optIncl : List String
  admitted : List String
  events : List SelEvent
deriving DecidableEq

/-- Lines 233-238 of collect_configs: the exclude check (which tests
membership in self.exclude, the runtime-wide merged exclude list) and, when
it does not fire, the admission of the name via the gen callback. -/
def ccAfterSel (checkExclude : Bool) (globalExclude : List String)
    (searchType : String) (st : CCState) (name : String) : CCState :=
  if checkExclude = true ∧ name ∈ globalExclude then
    { st with events := st.events ++ [SelEvent.excludeEv searchType name] }
  else
    { st with admitted := st.admitted ++ [name] }

/-- One iteration of the collect_configs loop body (lines 220-238).  The
check flags were computed once at entry (lines 215-217) from the initial
lists and are never recomputed, so they stay fixed even after the include
list has been fully consumed. -/
def ccStep (checkInclude checkOptional checkExclude : Bool)
    (globalExclude : List String) (searchType : String)
    (st : CCState) (name : String) : CCState :=
  if checkInclude = true ∨ checkOptional = true then
    if checkInclude = true ∧ name ∈ st.incl then
      ccAfterSel checkExclude globalExclude searchType
        { st with incl := st.incl.erase name,
                  events := st.events ++ [SelEvent.includeEv name] } name
    else if checkOptional = true ∧ name ∈ st.optIncl then
      ccAfterSel checkExclude globalExclude searchType
        { st with optIncl := st.optIncl.erase name,
                  events := st.events ++ [SelEvent.optionalIncludeEv name] } name
    else
      { st with events := st.events ++ [SelEvent.skipEv searchType name] }
  else
    ccAfterSel checkExclude globalExclude searchType st name

/-- collect_configs (lines 214-238): folds the loop body over the discovered
name list.  incl, optIncl and excl are the per-kind lists built at lines
178-198 (image_include / rpm_include and friends); globalExclude is
self.exclude, which line 233 consults for membership. -/
def collectConfigs (searchType : String)
    (nameList incl optIncl excl globalExclude : List String) : CCState :=
  nameList.foldl (ccStep (!incl.isEmpty) (!optIncl.isEmpty) (!excl.isEmpty)
      globalExclude searchType)
    { incl := incl, optIncl := optIncl, admitted := [], events := [] }

/-- Result of the selection portion of Runtime.initialize: the keys of
image_map and rpm_map in insertion order, plus the emitted log events. -/
structure SelectionOutcome where
  imageMap : List String
  rpmMap : List String
  events : List SelEvent
deriving DecidableEq

/-- Failure modes of the selection portion of Runtime.initialize:
typeError models the Python TypeError raised when a None filter reaches a
len() / membership / set() operation; missedInclude models the IOError of
line 202; emptySelection the IOError of line 249. -/
inductive InitError where
  | typeError
  | missedInclude (names : List String)
  | emptySelection
deriving DecidableEq

instance {ε α : Type} [DecidableEq ε] [DecidableEq α] : DecidableEq (Except ε α)
  | Except.error a, Except.error b =>
    if h : a = b then isTrue (by rw [h]) else isFalse (by intro hc; injection hc; contradiction)
  | Except.error _, Except.ok _ => isFalse (by intro hc; cases hc)
  | Except.ok _, Except.error _ => isFalse (by intro hc; cases hc)
  | Except.ok a, Except.ok b =>
    if h : a = b then isTrue (by rw [h]) else isFalse (by intro hc; injection hc; contradiction)

/-- Lines 150-154: a group.yml default (grp, none when the key is Missing)
replaces the command-line filter (cmd) only when the command-line value is
None. -/
def mergeFilter (cmd grp : Option (List String)) : Option (List String) :=
  match grp, cmd with
  | some g, none => some g
  | _, _ => cmd

/-- One iteration group of the loops at lines 181-187 and 192-198: the
per-kind clone of a filter, holding the discovered names that are members of
the filter, in discovery order. -/
def kindFilter (nameList filt : List String) : List String :=
  nameList.filter (fun n => decide (n ∈ filt))

/-- Set difference of lines 200 and 204: the filter entries found in neither
per-kind match list. -/
def missedOf (filt foundA foundB : List String) : List String :=
  filt.dedup.filter (fun n => decide (n ∉ foundA ++ foundB))

/-- Line 200: include entries located neither among the image nor among the
rpm directories. -/
def missedIncludeOf (includeL imagesList rpmsList : List String) : List String :=
  missedOf includeL (kindFilter imagesList includeL) (kindFilter rpmsList includeL)

/-- Line 204: optional_include entries located neither among the image nor
among the rpm directories. -/
def missedOptionalOf (optionalL imagesList rpmsList : List String) : List String :=
  missedOf optionalL (kindFilter imagesList optionalL) (kindFilter rpmsList optionalL)

/-- Lines 240-242: the image-kind collect_configs call, with the per-kind
clones image_include / image_optional_include / image_exclude. -/
def imageSelection (includeL excludeL optionalL imagesList : List String) : CCState :=
  collectConfigs "image" imagesList (kindFilter imagesList includeL)
    (kindFilter imagesList optionalL) (kindFilter imagesList excludeL) excludeL

/-- Lines 244-246: the rpm-kind collect_configs call, with the per-kind
clones rpm_include / rpm_optional_include / rpm_exclude. -/
def rpmSelection (includeL excludeL optionalL rpmsList : List String) : CCState :=
  collectConfigs "rpm" rpmsList (kindFilter rpmsList includeL)
    (kindFilter rpmsList optionalL) (kindFilter rpmsList excludeL) excludeL

/-- Lines 177-249 of Runtime.initialize for non-None filter lists: build the
six per-kind lists (178-198), fail on missed includes (200-202), report
missed optional includes (204-206), run collect_configs once per kind
(240-246) with fresh per-kind include / optional / exclude lists, and fail
when both registries end up empty (248-249). -/
def selectCore (includeL excludeL optionalL : List String)
    (imagesList rpmsList : List String) : Except InitError SelectionOutcome :=
  if (missedIncludeOf includeL imagesList rpmsList).isEmpty then
    if (imageSelection includeL excludeL optionalL imagesList).admitted.length
        + (rpmSelection includeL excludeL optionalL rpmsList).admitted.length = 0 then
      Except.error InitError.emptySelection
    else
      Except.ok ⟨(imageSelection includeL excludeL optionalL imagesList).admitted,
        (rpmSelection includeL excludeL optionalL rpmsList).admitted,
        (if (missedOptionalOf optionalL imagesList rpmsList).isEmpty then ([] : List SelEvent)
         else [SelEvent.missedOptionalEv (missedOptionalOf optionalL imagesList rpmsList)])
        ++ (imageSelection includeL excludeL optionalL imagesList).events
        ++ (rpmSelection includeL excludeL optionalL rpmsList).events⟩
  else
    Except.error (InitError.missedInclude (missedIncludeOf includeL imagesList rpmsList))

/-- Selection portion of Runtime.initialize with the filters as they arrive
from the command line (None modelled as Option.none), lines 150-249.  A None
include (after the group.yml merge) raises TypeError at the len() call of
line 165; a None exclude at line 168; a None optional_include at the first
membership test of line 184 or 195 when a directory was discovered, and
otherwise at the set() call of line 204 - except that when both discovery
lists are empty and include is non-empty the missed-include IOError of line
202 fires first, before line 204 is reached. -/
def initializeSelection (cmdInclude cmdExclude optionalInclude : Option (List String))
    (grpIncludes grpExcludes : Option (List String))
    (imagesList rpmsList : List String) : Except InitError SelectionOutcome :=
  match mergeFilter cmdInclude grpIncludes with
  | none => Except.error InitError.typeError
  | some includeL =>
    match mergeFilter cmdExclude grpExcludes with
    | none => Except.error InitError.typeError
    | some excludeL =>
      match optionalInclude with
      | none =>
        if imagesList = [] ∧ rpmsList = [] then
          if (missedOf includeL [] []).isEmpty then Except.error InitError.typeError
          else Except.error (InitError.missedInclude (missedOf includeL [] []))
        else Except.error InitError.typeError
      | some optionalL => selectCore includeL excludeL optionalL imagesList rpmsList

/-- Observable side effects of the setup portion of Runtime.initialize
(lines 104-128 and 208-246). -/
inductive SetupAct where
  | mkdirDistgits
  | mkdirDistgitsDiffs
  | openDebugLog
  | openRecordLog
  | mkdirBrewLogs
  | mkdirFlags
  | readGroupYml
  | populateRegistries
deriving DecidableEq

/-- Lifecycle-relevant slice of the Runtime object: the initialized flag
(line 74) and the trace of setup actions performed so far. -/
structure RtLifecycle where
  initialized : Bool
  acts : List SetupAct
deriving DecidableEq

/-- Runtime.__init__ line 74: the flag starts False with no setup done. -/
def newRuntime : RtLifecycle := { initialized := false, acts := [] }

/-- Runtime.initialize, lines 82-128 plus the registry population, viewed
through the lifecycle slice: return early when initialized is already True
(line 84), otherwise perform the filesystem and registry setup.  The body of
initialize contains no assignment to self.initialized, so the flag is left
exactly as it was. -/
def initializeLifecycle (st : RtLifecycle) : RtLifecycle :=
  if st.initialized then st
  else
    { initialized := st.initialized,
      acts := st.acts ++ [SetupAct.mkdirDistgits, SetupAct.mkdirDistgitsDiffs,
        SetupAct.openDebugLog, SetupAct.openRecordLog, SetupAct.mkdirBrewLogs,
        SetupAct.mkdirFlags, SetupAct.readGroupYml, SetupAct.populateRegistries] }

/-- Character-level translation of the Python expression
str.replace applied to a line feed, with the five-character token
space-semicolon-semicolon-semicolon-space as replacement (line 307). -/
def replaceLF : List Char → List Char
  | [] => []
  | c :: cs =>
    if c = '\n' then ' ' :: ';' :: ';' :: ';' :: ' ' :: replaceLF cs
    else c :: replaceLF cs

/-- Line 307: v.replace of every line feed by the token, then removal of
every carriage return. -/
def encodeValue (v : String) : String :=
  ⟨(replaceLF v.data).filter (fun c => !(c = '\r' : Bool))⟩

/-- Lines 303-308: record starts as record_type followed by a pipe, then
each key=value pair is appended with a trailing pipe. -/
def recordBody (recordType : String) (kvs : List (String × String)) : String :=
  kvs.foldl (fun record kv => record ++ kv.1 ++ "=" ++ encodeValue kv.2 ++ "|")
    (recordType ++ "|")

/-- Runtime.add_record (lines 287-312): the single line written to
record.log, or none when the assert at line 305 fires because a key contains
a line feed. -/
def addRecordLine (recordType : String) (kvs : List (String × String)) : Option String :=
  if kvs.all (fun kv => !kv.1.data.contains '\n') then
    some (recordBody recordType kvs ++ "\n")
  else none

/-- Runtime.resolve_image (lines 322-327) over an association-list model of
image_map: absent plus required raises IOError; absent plus not required
returns Python None (ok none); present returns the handle. -/
def resolve_image {α : Type} (image_map : List (String × α))
    (distgit_name : String) (required : Bool) : Except String (Option α) :=
  match image_map.lookup distgit_name with
  | none =>
    if required then
      Except.error ("Unable to find image metadata in group / included images: " ++ distgit_name)
    else Except.ok none
  | some md => Except.ok (some md)

/-- Runtime.resolve_stream (lines 329-338): the command-line override map is
consulted first; otherwise the streams document; otherwise IOError. -/
def resolve_stream (stream_alias_overrides streams : List (String × String))
    (stream_name : String) : Except String String :=
  match stream_alias_overrides.lookup stream_name with
  | some v => Except.ok v
  | none =>
    match streams.lookup stream_name with
    | none => Except.error ("Unable to find definition for stream: " ++ stream_name)
    | some v => Except.ok v

/-- Runtime.flag_exists (lines 347-348) over an association-list model of
the flags directory (file name to content): os.path.isfile. -/
def flag_exists (fs : List (String × String)) (flag_name : String) : Bool :=
  (fs.lookup flag_name).isSome

/-- Runtime.flag_create (lines 343-345): open with mode w creates the file
or truncates an existing one, then writes msg. -/
def flag_create (fs : List (String × String)) (flag_name msg : String) :
    List (String × String) :=
  (flag_name, msg) :: fs.filter (fun p => !(p.1 == flag_name))

/-- os.remove: deletes the file, raising OSError (none) when it is absent. -/
def os_remove (fs : List (String × String)) (path : String) :
    Option (List (String × String)) :=
  if (fs.lookup path).isSome then some (fs.filter (fun p => !(p.1 == path)))
  else none

/-- Runtime.flag_remove (lines 350-352): remove only when the flag exists,
otherwise do nothing. -/
def flag_remove (fs : List (String × String)) (flag_name : String) :
    Option (List (String × String)) :=
  if flag_exists fs flag_name then os_remove fs flag_name else some fs

/-- Appending strings concatenates their character data. -/
theorem str_data_append (a b : String) : (a ++ b).data = a.data ++ b.data := rfl

/-- The record built by the loop of lines 303-308 always ends in a pipe
character, because it starts as record_type plus a pipe and every appended
key=value group also ends in a pipe. -/
theorem recordBody_data_ends (rt : String) (kvs : List (String × String)) :
    ∃ p, (recordBody rt kvs).data = p ++ ['|'] := by
  have key : ∀ (kvs : List (String × String)) (acc : String),
      (∃ p, acc.data = p ++ ['|']) →
      ∃ p, (kvs.foldl (fun record kv => record ++ kv.1 ++ "=" ++ encodeValue kv.2 ++ "|")
        acc).data = p ++ ['|'] := by
    intro kvs
    induction kvs with
    | nil => intro acc h; exact h
    | cons kv t ih =>
      intro acc _h
      rw [List.foldl_cons]
      exact ih _ ⟨(acc ++ kv.1 ++ "=" ++ encodeValue kv.2).data, rfl⟩
  exact key kvs (rt ++ "|") ⟨rt.data, rfl⟩

/-- Claim C6: add_record encodes exactly one line recordType|k1=v1|k2=v2|...|
followed by a newline; every value first has each line feed replaced by the
five-character token and each carriage return stripped; in particular the
build record with an embedded line feed produces the documented literal
line, and the last character before the newline is always a pipe. -/
theorem c6_add_record :
    addRecordLine "build" [("name", "foo\nbar"), ("status", "ok")]
      = some "build|name=foo ;;; bar|status=ok|\n"
    ∧ ∀ (rt : String) (kvs : List (String × String)),
        kvs.all (fun kv => !kv.1.data.contains '\n') = true →
        ∃ s, addRecordLine rt kvs = some s ∧ ∃ p, s.data = p ++ ['|', '\n'] := by
  constructor
  · decide
  · intro rt kvs h
    refine ⟨recordBody rt kvs ++ "\n", by rw [addRecordLine, if_pos h], ?_⟩
    obtain ⟨p, hp⟩ := recordBody_data_ends rt kvs
    refine ⟨p, ?_⟩
    rw [str_data_append, hp, List.append_assoc]
    rfl

/-- Witness for C6 at a concrete record. -/
theorem c6_add_record_witness :
    ([(("k" : String), ("v" : String))].all (fun kv => !kv.1.data.contains '\n') = true)
    ∧ ∃ s, addRecordLine "t" [("k", "v")] = some s ∧ ∃ p, s.data = p ++ ['|', '\n'] :=
  ⟨by decide, c6_add_record.2 "t" [("k", "v")] (by decide)⟩

/-- Claim C7: resolve_image returns the registered handle when the name is
in image_map; when absent it raises when required and returns the explicit
absent value when not required. -/
theorem c7_resolve_image {α : Type} (m : List (String × α)) (name : String) :
    (∀ v, m.lookup name = some v →
      resolve_image m name true = Except.ok (some v)
      ∧ resolve_image m name false = Except.ok (some v))
    ∧ (m.lookup name = none →
      (∃ msg, resolve_image m name true = Except.error msg)
      ∧ resolve_image m name false = Except.ok none) := by
  constructor
  · intro v hv
    constructor <;> simp [resolve_image, hv]
  · intro h
    constructor
    · exact ⟨"Unable to find image metadata in group / included images: " ++ name,
        by simp [resolve_image, h]⟩
    · simp [resolve_image, h]

/-- Witness for C7 at a concrete one-entry registry. -/
theorem c7_resolve_image_witness :
    resolve_image [("a", (1 : Nat))] "a" true = Except.ok (some 1)
    ∧ (∃ msg, resolve_image [("a", (1 : Nat))] "b" true = Except.error msg)
    ∧ resolve_image [("a", (1 : Nat))] "b" false = Except.ok none :=
  ⟨((c7_resolve_image [("a", 1)] "a").1 1 (by decide)).1,
   ((c7_resolve_image [("a", 1)] "b").2 (by decide)).1,
   ((c7_resolve_image [("a", 1)] "b").2 (by decide)).2⟩

/-- Claim C8: resolve_stream returns the command-line override when defined,
else the streams entry, and raises when neither defines the name. -/
theorem c8_resolve_stream (ov st : List (String × String)) (name : String) :
    (∀ v, ov.lookup name = some v → resolve_stream ov st name = Except.ok v)
    ∧ (ov.lookup name = none → ∀ v, st.lookup name = some v →
        resolve_stream ov st name = Except.ok v)
    ∧ (ov.lookup name = none → st.lookup name = none →
        ∃ msg, resolve_stream ov st name = Except.error msg) := by
  refine ⟨?_, ?_, ?_⟩
  · intro v hv; simp [resolve_stream, hv]
  · intro h v hv; simp [resolve_stream, h, hv]
  · intro h1 h2
    exact ⟨"Unable to find definition for stream: " ++ name,
      by simp [resolve_stream, h1, h2]⟩

/-- Witness for C8: the override golang-1.18 beats the stream golang-1.16. -/
theorem c8_resolve_stream_witness :
    resolve_stream [("golang", "golang-1.18")] [("golang", "golang-1.16")] "golang"
      = Except.ok "golang-1.18" :=
  (c8_resolve_stream [("golang", "golang-1.18")] [("golang", "golang-1.16")] "golang").1
    "golang-1.18" (by decide)

/-- Claim C9: creating a flag twice leaves it existing, and removing an
absent flag is a failure-free no-op. -/
theorem c9_flag_idempotence (fs : List (String × String)) (n m1 m2 : String) :
    flag_exists (flag_create (flag_create fs n m1) n m2) n = true
    ∧ (flag_exists fs n = false → flag_remove fs n = some fs) := by
  constructor
  · simp [flag_exists, flag_create, List.lookup]
  · intro h; simp [flag_remove, h]

/-- Witness for C9 on the empty flags directory. -/
theorem c9_flag_idempotence_witness :
    flag_exists (flag_create (flag_create [] "x" "") "x" "") "x" = true
    ∧ flag_remove [] "x" = some [] :=
  ⟨(c9_flag_idempotence [] "x" "" "").1, (c9_flag_idempotence [] "x" "" "").2 (by decide)⟩

/-- Claim C1 (code bug): initialize never assigns True to the initialized
flag, so on a fresh Runtime the flag stays false after a successful
initialize, a second call is not a no-op, and the filesystem setup (for
example opening debug.log) is performed again by the second call. -/
theorem c1_initialize_not_idempotent :
    (initializeLifecycle newRuntime).initialized = false
    ∧ initializeLifecycle (initializeLifecycle newRuntime) ≠ initializeLifecycle newRuntime
    ∧ (initializeLifecycle (initializeLifecycle newRuntime)).acts.count
        SetupAct.openDebugLog = 2 := by
  decide

/-- Counterexample for C10: with optional_include None, include nonempty
and both discovery lists empty, initialization fails with the
missed-include IOError of line 202, not with a TypeError. -/
theorem c10_counterexample :
    initializeSelection (some ["a"]) (some []) none none none [] []
      = Except.error (InitError.missedInclude ["a"])
    ∧ initializeSelection (some ["a"]) (some []) none none none [] []
      ≠ Except.error InitError.typeError := by
  decide

/-- One loop step either admits exactly the current name (when the exclude
check does not fire) or admits nothing. -/
theorem ccStep_admitted_shape (ci co ce : Bool) (g : List String) (k : String)
    (st : CCState) (y : String) :
    (ccStep ci co ce g k st y).admitted = st.admitted
    ∨ ((ccStep ci co ce g k st y).admitted = st.admitted ++ [y]
        ∧ ¬(ce = true ∧ y ∈ g)) := by
  unfold ccStep ccAfterSel
  split_ifs <;> first
    | exact Or.inl rfl
    | exact Or.inr ⟨rfl, by assumption⟩

/-- The loop only appends admitted names: the names added over a whole list
come from that list and never satisfy an active exclude check. -/
theorem ccFold_admitted_append (ci co ce : Bool) (g : List String) (k : String) :
    ∀ (l : List String) (st : CCState),
    ∃ t, (l.foldl (ccStep ci co ce g k) st).admitted = st.admitted ++ t
      ∧ ∀ x ∈ t, x ∈ l ∧ ¬(ce = true ∧ x ∈ g) := by
  intro l
  induction l with
  | nil => intro st; exact ⟨[], by simp, by simp⟩
  | cons y ys ih =>
    intro st
    rw [List.foldl_cons]
    obtain ⟨t1, ht1, hp1⟩ := ih (ccStep ci co ce g k st y)
    rcases ccStep_admitted_shape ci co ce g k st y with h | ⟨h, hc⟩
    · refine ⟨t1, by rw [ht1, h], ?_⟩
      intro x hx
      exact ⟨List.mem_cons_of_mem y (hp1 x hx).1, (hp1 x hx).2⟩
    · refine ⟨y :: t1, ?_, ?_⟩
      · rw [ht1, h, List.append_assoc]
        rfl
      · intro x hx
        rcases List.mem_cons.mp hx with rfl | hx2
        · exact ⟨List.mem_cons_self _ _, hc⟩
        · exact ⟨List.mem_cons_of_mem y (hp1 x hx2).1, (hp1 x hx2).2⟩

/-- A name in the consumable include list survives a step on a different
name. -/
theorem ccStep_incl_mem (ci co ce : Bool) (g : List String) (k : String)
    (st : CCState) (y name : String) (hmem : name ∈ st.incl) (hne : name ≠ y) :
    name ∈ (ccStep ci co ce g k st y).incl := by
  unfold ccStep ccAfterSel
  split_ifs <;> simp_all [List.mem_erase_of_ne hne]

/-- A name in the consumable include list survives the loop over a list not
containing it. -/
theorem ccFold_incl_mem (ci co ce : Bool) (g : List String) (k : String) :
    ∀ (l : List String) (st : CCState) (name : String),
    name ∈ st.incl → name ∉ l → name ∈ (l.foldl (ccStep ci co ce g k) st).incl := by
  intro l
  induction l with
  | nil => intro st name h _; exact h
  | cons y ys ih =>
    intro st name h hnl
    rw [List.foldl_cons]
    exact ih _ name
      (ccStep_incl_mem ci co ce g k st y name h (fun hc => hnl (hc ▸ List.mem_cons_self y ys)))
      (fun hc => hnl (List.mem_cons_of_mem y hc))

/-- A name in the consumable optional_include list survives a step on a
different name. -/
theorem ccStep_opt_mem (ci co ce : Bool) (g : List String) (k : String)
    (st : CCState) (y name : String) (hmem : name ∈ st.optIncl) (hne : name ≠ y) :
    name ∈ (ccStep ci co ce g k st y).optIncl := by
  unfold ccStep ccAfterSel
  split_ifs <;> simp_all [List.mem_erase_of_ne hne]

/-- A name in the consumable optional_include list survives the loop over a
list not containing it. -/
theorem ccFold_opt_mem (ci co ce : Bool) (g : List String) (k : String) :
    ∀ (l : List String) (st : CCState) (name : String),
    name ∈ st.optIncl → name ∉ l → name ∈ (l.foldl (ccStep ci co ce g k) st).optIncl := by
  intro l
  induction l with
  | nil => intro st name h _; exact h
  | cons y ys ih =>
    intro st name h hnl
    rw [List.foldl_cons]
    exact ih _ name
      (ccStep_opt_mem ci co ce g k st y name h (fun hc => hnl (hc ▸ List.mem_cons_self y ys)))
      (fun hc => hnl (List.mem_cons_of_mem y hc))

/-- Loop steps only append log events. -/
theorem ccStep_events_mono (ci co ce : Bool) (g : List String) (k : String)
    (st : CCState) (y : String) (e : SelEvent) (h : e ∈ st.events) :
    e ∈ (ccStep ci co ce g k st y).events := by
  unfold ccStep ccAfterSel
  split_ifs <;> simp_all

/-- The whole loop only appends log events. -/
theorem ccFold_events_mono (ci co ce : Bool) (g : List String) (k : String) :
    ∀ (l : List String) (st : CCState) (e : SelEvent),
    e ∈ st.events → e ∈ (l.foldl (ccStep ci co ce g k) st).events := by
  intro l
  induction l with
  | nil => intro st e h; exact h
  | cons y ys ih =>
    intro st e h
    rw [List.foldl_cons]
    exact ih _ e (ccStep_events_mono ci co ce g k st y e h)

/-- When the include check is active, the current name is still in the
consumable include list, and the exclude check does not fire, the step
admits exactly this name. -/
theorem ccStep_admit_include (ci co ce : Bool) (g : List String) (k : String)
    (st : CCState) (name : String) (hci : ci = true) (hmem : name ∈ st.incl)
    (hnex : ¬(ce = true ∧ name ∈ g)) :
    (ccStep ci co ce g k st name).admitted = st.admitted ++ [name] := by
  unfold ccStep ccAfterSel
  rw [if_pos (Or.inl hci), if_pos ⟨hci, hmem⟩, if_neg hnex]

/-- When the selective gate passes (via include or via optional_include)
and the exclude check fires, the step emits an explicit exclusion event. -/
theorem ccStep_exclude_event (ci co ce : Bool) (g : List String) (k : String)
    (st : CCState) (name : String)
    (hgate : (ci = true ∧ name ∈ st.incl) ∨ (co = true ∧ name ∈ st.optIncl))
    (hce : ce = true) (hg : name ∈ g) :
    SelEvent.excludeEv k name ∈ (ccStep ci co ce g k st name).events := by
  unfold ccStep ccAfterSel
  split_ifs with h1 h2 h3 h4 h5 h6
  all_goals try simp
  all_goals tauto

/-- With both selective checks off there is no gate: a name hitting an
active exclude check is reported with an explicit exclusion event. -/
theorem ccStep_exclude_event_nonselective (ce : Bool) (g : List String)
    (k : String) (st : CCState) (name : String)
    (hce : ce = true) (hg : name ∈ g) :
    SelEvent.excludeEv k name ∈ (ccStep false false ce g k st name).events := by
  unfold ccStep ccAfterSel
  rw [if_neg (by simp), if_pos ⟨hce, hg⟩]
  simp

/-- With both selective checks off, the loop admits exactly the names
passing the exclude check, in listing order. -/
theorem ccFold_nonselective (ce : Bool) (g : List String) (k : String) :
    ∀ (l : List String) (st : CCState),
    (l.foldl (ccStep false false ce g k) st).admitted
      = st.admitted ++ (if ce = true then l.filter (fun x => decide (x ∉ g)) else l) := by
  intro l
  induction l with
  | nil => intro st; simp
  | cons y ys ih =>
    intro st
    rw [List.foldl_cons, ih]
    by_cases hce : ce = true
    · by_cases hyg : y ∈ g
      · have hs : (ccStep false false ce g k st y).admitted = st.admitted := by
          unfold ccStep ccAfterSel
          rw [if_neg (by simp), if_pos ⟨hce, hyg⟩]
        rw [hs]
        simp [hce, hyg]
      · have hs : (ccStep false false ce g k st y).admitted = st.admitted ++ [y] := by
          unfold ccStep ccAfterSel
          rw [if_neg (by simp), if_neg (by tauto)]
        rw [hs]
        simp [hce, hyg]
    · have hs : (ccStep false false ce g k st y).admitted = st.admitted ++ [y] := by
        unfold ccStep ccAfterSel
        rw [if_neg (by simp), if_neg (by tauto)]
      rw [hs]
      simp [hce]

/-- Membership in a per-kind filter clone. -/
theorem mem_kindFilter {l filt : List String} {x : String} :
    x ∈ kindFilter l filt ↔ x ∈ l ∧ x ∈ filt := by
  simp [kindFilter]

/-- The per-kind clone of an empty filter is empty. -/
theorem kindFilter_nil (l : List String) : kindFilter l [] = [] := by
  simp [kindFilter]

/-- A list with a member is not empty in the Boolean sense. -/
theorem not_isEmpty_of_mem {l : List String} {x : String} (h : x ∈ l) :
    (!l.isEmpty) = true := by
  cases l with
  | nil => cases h
  | cons a t => rfl

/-- Reducing the full pipeline to the pure selection when no filter is
None. -/
theorem initializeSelection_some (inc exc opt il rl : List String) :
    initializeSelection (some inc) (some exc) (some opt) none none il rl
      = selectCore inc exc opt il rl := rfl

/-- Inverting a successful selection: the registries are the per-kind
admitted lists and every image-pass and rpm-pass event is among the outcome
events. -/
theorem selectCore_ok_inv (inc exc opt il rl : List String) (out : SelectionOutcome)
    (h : selectCore inc exc opt il rl = Except.ok out) :
    out.imageMap = (imageSelection inc exc opt il).admitted
    ∧ out.rpmMap = (rpmSelection inc exc opt rl).admitted
    ∧ (∀ e, e ∈ (imageSelection inc exc opt il).events → e ∈ out.events)
    ∧ (∀ e, e ∈ (rpmSelection inc exc opt rl).events → e ∈ out.events) := by
  unfold selectCore at h
  split at h
  · split at h
    · exact absurd h (by simp)
    · rw [Except.ok.injEq] at h
      subst h
      refine ⟨rfl, rfl, ?_, ?_⟩ <;>
        · intro e he
          simp only [List.mem_append]
          tauto
  · exact absurd h (by simp)

/-- Inverting a missed-include failure: the reported list is exactly the
include entries found in neither directory listing. -/
theorem selectCore_missed_inv (inc exc opt il rl missed : List String)
    (h : selectCore inc exc opt il rl
      = Except.error (InitError.missedInclude missed)) :
    missed = missedIncludeOf inc il rl := by
  unfold selectCore at h
  split at h
  · split at h
    · simp at h
    · exact absurd h (by simp)
  · rw [Except.error.injEq, InitError.missedInclude.injEq] at h
    exact h.symm

/-- A discovered name in an active global exclude list is never admitted by
collect_configs, because the per-kind exclude clone is then non-empty and
line 233 skips the name. -/
theorem collectConfigs_not_admitted (k : String) (l incl optIncl excG : List String)
    (name : String) (hg : name ∈ excG) :
    name ∉ (collectConfigs k l incl optIncl (kindFilter l excG) excG).admitted := by
  intro hmem
  obtain ⟨t, ht, hp⟩ := ccFold_admitted_append (!incl.isEmpty) (!optIncl.isEmpty)
    (!(kindFilter l excG).isEmpty) excG k l
    { incl := incl, optIncl := optIncl, admitted := [], events := [] }
  unfold collectConfigs at hmem
  rw [ht] at hmem
  simp only [List.nil_append] at hmem
  obtain ⟨hlmem, hnex⟩ := hp name hmem
  exact hnex ⟨not_isEmpty_of_mem (mem_kindFilter.mpr ⟨hlmem, hg⟩), hg⟩

/-- A discovered, not-excluded name present in the include filter is
admitted exactly once by the per-kind collect_configs pass. -/
theorem collectConfigs_count_one (k : String) (l inc opt excG : List String)
    (name : String) (hnd : l.Nodup) (hl : name ∈ l) (hinc : name ∈ inc)
    (hng : name ∉ excG) :
    ((collectConfigs k l (kindFilter l inc) (kindFilter l opt)
        (kindFilter l excG) excG).admitted).count name = 1 := by
  obtain ⟨l1, l2, rfl⟩ := List.append_of_mem hl
  rw [List.nodup_append] at hnd
  have hn1 : name ∉ l1 := fun hmem => hnd.2.2 hmem (List.mem_cons_self _ _)
  have hn2 : name ∉ l2 := (List.nodup_cons.mp hnd.2.1).1
  have hst0 : name ∈ kindFilter (l1 ++ name :: l2) inc :=
    mem_kindFilter.mpr ⟨hl, hinc⟩
  unfold collectConfigs
  rw [List.foldl_append, List.foldl_cons]
  obtain ⟨t1, ht1, hp1⟩ := ccFold_admitted_append (!(kindFilter (l1 ++ name :: l2) inc).isEmpty)
    (!(kindFilter (l1 ++ name :: l2) opt).isEmpty)
    (!(kindFilter (l1 ++ name :: l2) excG).isEmpty) excG k l1
    { incl := kindFilter (l1 ++ name :: l2) inc,
      optIncl := kindFilter (l1 ++ name :: l2) opt, admitted := [], events := [] }
  have hmem1 : name ∈ (List.foldl (ccStep (!(kindFilter (l1 ++ name :: l2) inc).isEmpty)
      (!(kindFilter (l1 ++ name :: l2) opt).isEmpty)
      (!(kindFilter (l1 ++ name :: l2) excG).isEmpty) excG k)
      { incl := kindFilter (l1 ++ name :: l2) inc,
        optIncl := kindFilter (l1 ++ name :: l2) opt, admitted := [], events := [] } l1).incl :=
    ccFold_incl_mem _ _ _ _ _ l1 _ name hst0 hn1
  have hstep := ccStep_admit_include (!(kindFilter (l1 ++ name :: l2) inc).isEmpty)
    (!(kindFilter (l1 ++ name :: l2) opt).isEmpty)
    (!(kindFilter (l1 ++ name :: l2) excG).isEmpty) excG k _ name
    (not_isEmpty_of_mem hst0) hmem1 (fun hc => hng hc.2)
  obtain ⟨t2, ht2, hp2⟩ := ccFold_admitted_append (!(kindFilter (l1 ++ name :: l2) inc).isEmpty)
    (!(kindFilter (l1 ++ name :: l2) opt).isEmpty)
    (!(kindFilter (l1 ++ name :: l2) excG).isEmpty) excG k l2 _
  rw [ht2, hstep, ht1]
  have c1 : t1.count name = 0 := List.count_eq_zero.mpr (fun hmem => hn1 (hp1 name hmem).1)
  have c2 : t2.count name = 0 := List.count_eq_zero.mpr (fun hmem => hn2 (hp2 name hmem).1)
  simp [List.count_append, c1, c2]

/-- A discovered name in the active global exclude list is reported with an
explicit exclusion event by collect_configs whenever the name reaches the
exclude check of line 233: either it passes the selective gate (member of
include, or of optional_include), or the kind runs in exclusion-only mode
because both of its selective clones are empty. -/
theorem collectConfigs_exclude_event (k : String) (l inc opt excG : List String)
    (name : String) (hnd : l.Nodup) (hl : name ∈ l) (hg : name ∈ excG)
    (hio : (name ∈ inc ∨ name ∈ opt)
      ∨ (kindFilter l inc = [] ∧ kindFilter l opt = [])) :
    SelEvent.excludeEv k name
      ∈ (collectConfigs k l (kindFilter l inc) (kindFilter l opt)
          (kindFilter l excG) excG).events := by
  obtain ⟨l1, l2, rfl⟩ := List.append_of_mem hl
  rw [List.nodup_append] at hnd
  have hn1 : name ∉ l1 := fun hmem => hnd.2.2 hmem (List.mem_cons_self _ _)
  have hce : (!(kindFilter (l1 ++ name :: l2) excG).isEmpty) = true :=
    not_isEmpty_of_mem (mem_kindFilter.mpr ⟨hl, hg⟩)
  rcases hio with hio | ⟨hi, ho⟩
  case intro.intro.inr.intro =>
    rw [hi, ho]
    unfold collectConfigs
    simp only [List.isEmpty_nil, Bool.not_true]
    rw [List.foldl_append, List.foldl_cons]
    exact ccFold_events_mono _ _ _ _ _ l2 _ _
      (ccStep_exclude_event_nonselective _ excG k _ name hce hg)
  unfold collectConfigs
  rw [List.foldl_append, List.foldl_cons]
  have hgate : ((!(kindFilter (l1 ++ name :: l2) inc).isEmpty) = true
      ∧ name ∈ (List.foldl (ccStep (!(kindFilter (l1 ++ name :: l2) inc).isEmpty)
          (!(kindFilter (l1 ++ name :: l2) opt).isEmpty)
          (!(kindFilter (l1 ++ name :: l2) excG).isEmpty) excG k)
          { incl := kindFilter (l1 ++ name :: l2) inc,
            optIncl := kindFilter (l1 ++ name :: l2) opt,
            admitted := [], events := [] } l1).incl)
      ∨ ((!(kindFilter (l1 ++ name :: l2) opt).isEmpty) = true
      ∧ name ∈ (List.foldl (ccStep (!(kindFilter (l1 ++ name :: l2) inc).isEmpty)
          (!(kindFilter (l1 ++ name :: l2) opt).isEmpty)
          (!(kindFilter (l1 ++ name :: l2) excG).isEmpty) excG k)
          { incl := kindFilter (l1 ++ name :: l2) inc,
            optIncl := kindFilter (l1 ++ name :: l2) opt,
            admitted := [], events := [] } l1).optIncl) := by
    by_cases hni : name ∈ inc
    · exact Or.inl ⟨not_isEmpty_of_mem (mem_kindFilter.mpr ⟨hl, hni⟩),
        ccFold_incl_mem _ _ _ _ _ l1 _ name (mem_kindFilter.mpr ⟨hl, hni⟩) hn1⟩
    · have hno : name ∈ opt := hio.resolve_left hni
      exact Or.inr ⟨not_isEmpty_of_mem (mem_kindFilter.mpr ⟨hl, hno⟩),
        ccFold_opt_mem _ _ _ _ _ l1 _ name (mem_kindFilter.mpr ⟨hl, hno⟩) hn1⟩
  exact ccFold_events_mono _ _ _ _ _ l2 _ _
    (ccStep_exclude_event _ _ _ excG k _ name hgate hce hg)

/-- With an empty per-kind membership filter the complementary filter keeps
the whole list. -/
theorem filter_not_mem_of_kindFilter_nil (l g : List String)
    (h : kindFilter l g = []) :
    l.filter (fun n => decide (n ∉ g)) = l := by
  rw [List.filter_eq_self]
  intro a ha
  simp only [decide_eq_true_eq]
  intro hag
  have : a ∈ kindFilter l g := mem_kindFilter.mpr ⟨ha, hag⟩
  rw [h] at this
  exact absurd this (List.not_mem_nil a)

/-- With both selective filters empty, collect_configs admits exactly the
discovered names outside the exclude list, in listing order. -/
theorem collectConfigs_nonselective (k : String) (l excG : List String) :
    (collectConfigs k l [] [] (kindFilter l excG) excG).admitted
      = l.filter (fun n => decide (n ∉ excG)) := by
  unfold collectConfigs
  simp only [List.isEmpty_nil, Bool.not_true]
  rw [ccFold_nonselective]
  simp only [List.nil_append]
  by_cases hce : (!(kindFilter l excG).isEmpty) = true
  · rw [if_pos hce]
  · rw [if_neg hce]
    have hEmp : (kindFilter l excG).isEmpty = true := by
      cases hb : (kindFilter l excG).isEmpty with
      | true => rfl
      | false => exact absurd (by rw [hb]; rfl) hce
    have hnil : kindFilter l excG = [] := by
      cases hk : kindFilter l excG with
      | nil => rfl
      | cons a t => rw [hk] at hEmp; simp at hEmp
    exact (filter_not_mem_of_kindFilter_nil l excG hnil).symm

/-- Counterexample for C2: with a name discovered both as an image and as an
rpm directory and listed once in include, the per-kind include clones are
consumed independently, so the name is admitted into BOTH registries - it is
not matched only once across kinds. -/
theorem c2_cross_kind_counterexample :
    initializeSelection (some ["a"]) (some []) (some []) none none ["a"] ["a"]
      = Except.ok ⟨["a"], ["a"], [SelEvent.includeEv "a", SelEvent.includeEv "a"]⟩
    ∧ "a" ∈ (⟨["a"], ["a"], [SelEvent.includeEv "a", SelEvent.includeEv "a"]⟩
        : SelectionOutcome).imageMap
    ∧ "a" ∈ (⟨["a"], ["a"], [SelEvent.includeEv "a", SelEvent.includeEv "a"]⟩
        : SelectionOutcome).rpmMap := by
  decide

/-- Claim C2 (amended): each kind consumes from its own per-kind clone of
the include filter, so an included, discovered, not-excluded name is
admitted exactly once within each kind that discovers it - and hence a name
present as both an image and an rpm directory is admitted once in each of
the two registries. -/
theorem c2_per_kind_consumption (inc opt exc il rl : List String) (name : String)
    (out : SelectionOutcome)
    (hok : initializeSelection (some inc) (some exc) (some opt) none none il rl
      = Except.ok out)
    (hinc : name ∈ inc) (hexc : name ∉ exc) :
    (il.Nodup → name ∈ il → out.imageMap.count name = 1)
    ∧ (rl.Nodup → name ∈ rl → out.rpmMap.count name = 1) := by
  rw [initializeSelection_some] at hok
  obtain ⟨hA, hB, _, _⟩ := selectCore_ok_inv inc exc opt il rl out hok
  constructor
  · intro hnd hil
    rw [hA]
    unfold imageSelection
    exact collectConfigs_count_one "image" il inc opt exc name hnd hil hinc hexc
  · intro hnd hrl
    rw [hB]
    unfold rpmSelection
    exact collectConfigs_count_one "rpm" rl inc opt exc name hnd hrl hinc hexc

/-- Witness for the amended C2 on the cross-kind duplicate scenario. -/
theorem c2_per_kind_consumption_witness :
    ∃ out, initializeSelection (some ["a"]) (some []) (some []) none none ["a"] ["a"]
        = Except.ok out
      ∧ out.imageMap.count "a" = 1 ∧ out.rpmMap.count "a" = 1 := by
  have hok : initializeSelection (some ["a"]) (some []) (some []) none none ["a"] ["a"]
      = Except.ok ⟨["a"], ["a"], [SelEvent.includeEv "a", SelEvent.includeEv "a"]⟩ := by
    decide
  have h := c2_per_kind_consumption ["a"] [] [] ["a"] ["a"] "a" _ hok
    (by decide) (by decide)
  exact ⟨_, hok, h.1 (by decide) (by decide), h.2 (by decide) (by decide)⟩

/-- Claim C3: an include entry found neither among the image directories nor
among the rpm directories makes initialization fail with the missed-include
error, and the error names that entry. -/
theorem c3_missing_include (inc exc opt il rl : List String) (name : String)
    (hinc : name ∈ inc) (hil : name ∉ il) (hrl : name ∉ rl) :
    ∃ missed, initializeSelection (some inc) (some exc) (some opt) none none il rl
      = Except.error (InitError.missedInclude missed) ∧ name ∈ missed := by
  have hmem : name ∈ missedIncludeOf inc il rl := by
    unfold missedIncludeOf missedOf
    rw [List.mem_filter]
    refine ⟨List.mem_dedup.mpr hinc, ?_⟩
    simp only [decide_eq_true_eq]
    intro hc
    rcases List.mem_append.mp hc with hA | hB
    · exact hil (mem_kindFilter.mp hA).1
    · exact hrl (mem_kindFilter.mp hB).1
  refine ⟨missedIncludeOf inc il rl, ?_, hmem⟩
  rw [initializeSelection_some]
  unfold selectCore
  have hne : ¬((missedIncludeOf inc il rl).isEmpty = true) := by
    intro hc
    have hnil : missedIncludeOf inc il rl = [] := by
      cases hk : missedIncludeOf inc il rl with
      | nil => rfl
      | cons a t => rw [hk] at hc; simp at hc
    rw [hnil] at hmem
    exact absurd hmem (List.not_mem_nil name)
  rw [if_neg hne]

/-- Witness for C3: the end-to-end scenario where include names q, which is
present nowhere. -/
theorem c3_missing_include_witness :
    ∃ missed, initializeSelection (some ["q"]) (some []) (some []) none none
        ["a", "b", "c"] ["x"]
      = Except.error (InitError.missedInclude missed) ∧ "q" ∈ missed :=
  c3_missing_include ["q"] [] [] ["a", "b", "c"] ["x"] "q"
    (by decide) (by decide) (by decide)

/-- Claim C4: a discovered name in the exclude filter is never admitted to
either registry, never shows up in a missed-include failure, and - whenever
it reaches the exclude check of its kind, that is, when it passes the
selective gate via include or optional_include, or when that kind runs in
exclusion-only mode because its selective clones are both empty (in
particular whenever include and optional_include are both empty) - it is
reported with an explicit exclusion event of that kind, for the image kind
and for the rpm kind alike. -/
theorem c4_exclude_wins (inc opt exc il rl : List String) (name : String) :
    (∀ out, initializeSelection (some inc) (some exc) (some opt) none none il rl
        = Except.ok out → name ∈ exc →
        name ∉ out.imageMap ∧ name ∉ out.rpmMap)
    ∧ (∀ missed, initializeSelection (some inc) (some exc) (some opt) none none il rl
        = Except.error (InitError.missedInclude missed) →
        name ∈ il ∨ name ∈ rl → name ∉ missed)
    ∧ (∀ out, initializeSelection (some inc) (some exc) (some opt) none none il rl
        = Except.ok out → name ∈ exc →
        ((name ∈ inc ∨ name ∈ opt) ∨ (kindFilter il inc = [] ∧ kindFilter il opt = [])) →
        il.Nodup → name ∈ il →
        SelEvent.excludeEv "image" name ∈ out.events)
    ∧ (∀ out, initializeSelection (some inc) (some exc) (some opt) none none il rl
        = Except.ok out → name ∈ exc →
        ((name ∈ inc ∨ name ∈ opt) ∨ (kindFilter rl inc = [] ∧ kindFilter rl opt = [])) →
        rl.Nodup → name ∈ rl →
        SelEvent.excludeEv "rpm" name ∈ out.events) := by
  refine ⟨?_, ?_, ?_, ?_⟩
  · intro out hok hexc
    rw [initializeSelection_some] at hok
    obtain ⟨hA, hB, _, _⟩ := selectCore_ok_inv inc exc opt il rl out hok
    rw [hA, hB]
    unfold imageSelection rpmSelection
    exact ⟨collectConfigs_not_admitted "image" il _ _ exc name hexc,
      collectConfigs_not_admitted "rpm" rl _ _ exc name hexc⟩
  · intro missed herr hd
    rw [initializeSelection_some] at herr
    have hmv := selectCore_missed_inv inc exc opt il rl missed herr
    subst hmv
    intro hmem
    unfold missedIncludeOf missedOf at hmem
    rw [List.mem_filter] at hmem
    obtain ⟨hdedup, hdec⟩ := hmem
    rw [decide_eq_true_eq] at hdec
    have hininc : name ∈ inc := List.mem_dedup.mp hdedup
    rcases hd with hil | hrl
    · exact hdec (List.mem_append.mpr (Or.inl (mem_kindFilter.mpr ⟨hil, hininc⟩)))
    · exact hdec (List.mem_append.mpr (Or.inr (mem_kindFilter.mpr ⟨hrl, hininc⟩)))
  · intro out hok hexc hio hnd hil
    rw [initializeSelection_some] at hok
    obtain ⟨_, _, hev, _⟩ := selectCore_ok_inv inc exc opt il rl out hok
    apply hev
    unfold imageSelection
    exact collectConfigs_exclude_event "image" il inc opt exc name hnd hil hexc hio
  · intro out hok hexc hio hnd hrl
    rw [initializeSelection_some] at hok
    obtain ⟨_, _, _, hevR⟩ := selectCore_ok_inv inc exc opt il rl out hok
    apply hevR
    unfold rpmSelection
    exact collectConfigs_exclude_event "rpm" rl inc opt exc name hnd hrl hexc hio

/-- Witness for C4: the name a is included, excluded and discovered as an
image (gated exclusion); the name x is excluded and discovered as an rpm
while the rpm kind runs in exclusion-only mode (its include and optional
clones are empty).  Both are kept out of the registries, do not trip the
missed-include check, and are logged as explicit exclusions of their
kinds. -/
theorem c4_exclude_wins_witness :
    ∃ out, initializeSelection (some ["a", "b"]) (some ["a", "x"]) (some []) none none
        ["a", "b"] ["x", "y"]
      = Except.ok out
      ∧ "a" ∉ out.imageMap ∧ "a" ∉ out.rpmMap ∧ "x" ∉ out.rpmMap
      ∧ SelEvent.excludeEv "image" "a" ∈ out.events
      ∧ SelEvent.excludeEv "rpm" "x" ∈ out.events := by
  have hok : initializeSelection (some ["a", "b"]) (some ["a", "x"]) (some []) none none
      ["a", "b"] ["x", "y"]
      = Except.ok ⟨["b"], ["y"], [SelEvent.includeEv "a", SelEvent.excludeEv "image" "a",
          SelEvent.includeEv "b", SelEvent.excludeEv "rpm" "x"]⟩ := by
    decide
  have ha := c4_exclude_wins ["a", "b"] [] ["a", "x"] ["a", "b"] ["x", "y"] "a"
  have hx := c4_exclude_wins ["a", "b"] [] ["a", "x"] ["a", "b"] ["x", "y"] "x"
  refine ⟨_, hok, (ha.1 _ hok (by decide)).1, (ha.1 _ hok (by decide)).2,
    (hx.1 _ hok (by decide)).2, ?_, ?_⟩
  · exact ha.2.2.1 _ hok (by decide) (Or.inl (Or.inl (by decide)))
      (by decide) (by decide)
  · exact hx.2.2.2 _ hok (by decide) (Or.inr ⟨by decide, by decide⟩)
      (by decide) (by decide)

/-- Claim C5: with include and optional_include both empty, selection is in
exclusion-only mode: each registry is exactly the discovered listing minus
the excluded names, in listing order - except that when that leaves both
registries empty, initialization fails with the empty-selection error. -/
theorem c5_exclusion_only (il rl exc : List String) :
    (initializeSelection (some []) (some exc) (some []) none none il rl
        = Except.error InitError.emptySelection
      ∧ il.filter (fun n => decide (n ∉ exc)) = []
      ∧ rl.filter (fun n => decide (n ∉ exc)) = [])
    ∨ (∃ out, initializeSelection (some []) (some exc) (some []) none none il rl
        = Except.ok out
      ∧ out.imageMap = il.filter (fun n => decide (n ∉ exc))
      ∧ out.rpmMap = rl.filter (fun n => decide (n ∉ exc))) := by
  rw [initializeSelection_some]
  have hA : (imageSelection [] exc [] il).admitted
      = il.filter (fun n => decide (n ∉ exc)) := by
    unfold imageSelection
    simp only [kindFilter_nil]
    exact collectConfigs_nonselective "image" il exc
  have hB : (rpmSelection [] exc [] rl).admitted
      = rl.filter (fun n => decide (n ∉ exc)) := by
    unfold rpmSelection
    simp only [kindFilter_nil]
    exact collectConfigs_nonselective "rpm" rl exc
  have hmissed : missedIncludeOf [] il rl = [] := by
    simp [missedIncludeOf, missedOf]
  unfold selectCore
  rw [hmissed]
  rw [if_pos (by rfl)]
  rw [hA, hB]
  by_cases hz : (il.filter (fun n => decide (n ∉ exc))).length
      + (rl.filter (fun n => decide (n ∉ exc))).length = 0
  · left
    rw [if_pos hz]
    have h1 : (il.filter (fun n => decide (n ∉ exc))).length = 0 := by omega
    have h2 : (rl.filter (fun n => decide (n ∉ exc))).length = 0 := by omega
    exact ⟨rfl, List.length_eq_zero.mp h1, List.length_eq_zero.mp h2⟩
  · right
    rw [if_neg hz]
    exact ⟨_, rfl, rfl, rfl⟩

/-- Claim C10 (amended): a None include or exclude filter surviving the
group.yml merge always crashes the selection with a TypeError at the len()
tests; a None optional_include always makes initialization fail - with a
TypeError whenever at least one image or rpm directory was discovered, and
with the earlier missed-include error in the corner case of empty discovery
lists and a non-empty include. -/
theorem c10_none_filter_crash (cI cE o gI gE : Option (List String))
    (il rl : List String) :
    ((mergeFilter cI gI = none ∨ mergeFilter cE gE = none) →
      initializeSelection cI cE o gI gE il rl = Except.error InitError.typeError)
    ∧ (o = none →
      (∃ e, initializeSelection cI cE o gI gE il rl = Except.error e)
      ∧ ((il ≠ [] ∨ rl ≠ []) →
        initializeSelection cI cE o gI gE il rl
          = Except.error InitError.typeError)) := by
  constructor
  · intro h
    cases hI : mergeFilter cI gI with
    | none => simp [initializeSelection, hI]
    | some lI =>
      cases hE : mergeFilter cE gE with
      | none => simp [initializeSelection, hI, hE]
      | some lE =>
        rcases h with h | h
        · rw [hI] at h; exact absurd h (by simp)
        · rw [hE] at h; exact absurd h (by simp)
  · intro ho
    subst ho
    cases hI : mergeFilter cI gI with
    | none =>
      exact ⟨⟨InitError.typeError, by simp [initializeSelection, hI]⟩,
        fun _ => by simp [initializeSelection, hI]⟩
    | some lI =>
      cases hE : mergeFilter cE gE with
      | none =>
        exact ⟨⟨InitError.typeError, by simp [initializeSelection, hI, hE]⟩,
          fun _ => by simp [initializeSelection, hI, hE]⟩
      | some lE =>
        constructor
        · by_cases hb : il = [] ∧ rl = []
          · by_cases hm : (missedOf lI [] []).isEmpty = true
            · exact ⟨InitError.typeError, by simp [initializeSelection, hI, hE, hb, hm]⟩
            · exact ⟨InitError.missedInclude (missedOf lI [] []),
                by simp [initializeSelection, hI, hE, hb, hm]⟩
          · exact ⟨InitError.typeError, by simp [initializeSelection, hI, hE, hb]⟩
        · intro hne
          have hb : ¬(il = [] ∧ rl = []) := by
            rcases hne with h | h
            · exact fun hc => h hc.1
            · exact fun hc => h hc.2
          simp [initializeSelection, hI, hE, hb]

/-- Witness for the amended C10: a None include crashes with TypeError. -/
theorem c10_none_filter_crash_witness :
    initializeSelection none (some []) (some []) none none [] []
      = Except.error InitError.typeError :=
  (c10_none_filter_crash none (some []) (some []) none none [] []).1 (Or.inl rfl)
